import Mathlib

/-!
# brightray: request-context construction and content-client forwarding

A shallow embedding of `browser/url_request_context_getter.cc` and
`common/content_client.cc`.

Conventions of the embedding

* A nullable pointer (`T*`, `scoped_ptr<T>`, `linked_ptr<T>`) to an object of
  type `T` is an `Option T`; `none` is the null pointer.
* Every object created with `new` or by a factory function of the engine
  carries the address it was allocated at (`addr`), drawn from the allocation
  counter of the `World`, so that two pointers are equal exactly when they
  point to the same object.  An object that exclusively owns another object
  with an address (a `ProtocolInterceptJobFactory` owns the factory it wraps)
  is identified by what it owns and carries no address of its own.
* The constructors and factory functions of the engine record their
  arguments in the object they return.
* `World` is the part of the process state the code touches outside the
  getter: the allocation counter, the number of runs of the network delegate
  callback and the number of violated `DCHECK`s.
* The two assertions on the current thread (lines 54 and 70) are left out:
  the embedding is sequential.
-/

namespace brightray

/-! ## The world outside the getter -/

/-- Process state outside the getter. -/
structure World where
  /-- the next address handed out by an allocation -/
  next_addr : Nat
  /-- how often `network_delegate_factory_.Run()` has been executed -/
  network_delegate_factory_runs : Nat
  /-- how many `DCHECK`s have been evaluated with a false condition -/
  dcheck_failures : Nat
deriving DecidableEq, Repr

/-- Allocation of one object: its address and the world afterwards. -/
def New (w : World) : Nat × World :=
  (w.next_addr, { w with next_addr := w.next_addr + 1 })

/-- The assertion `DCHECK(condition)`: a false condition is recorded. -/
def DCHECK (condition : Bool) (w : World) : World :=
  if condition then w else { w with dcheck_failures := w.dcheck_failures + 1 }

/-! ## Objects of the engine -/

/-- A `base::FilePath`, as the sequence of its path components; how the
components are joined by separators is not part of the embedding. -/
structure FilePath where
  components : List String
deriving DecidableEq, Repr

/-- `FilePath::Append(component)`: the path one component below. -/
def FilePath.Append (p : FilePath) (component : String) : FilePath :=
  ⟨p.components ++ [component]⟩

/-- `FilePath::DirName()`: the path without its last component. -/
def FilePath.DirName (p : FilePath) : FilePath :=
  ⟨p.components.dropLast⟩

/-- `FilePath::BaseName()`: the last component. -/
def FilePath.BaseName (p : FilePath) : Option String :=
  p.components.getLast?

/-- A `base::MessageLoop*`, by address. -/
abbrev MessageLoop := Nat

/-- A `NetworkDelegate` made by the embedder; `id` tells such objects apart. -/
structure NetworkDelegate where
  id : Nat
deriving DecidableEq, Repr

/-- The result of `net::ProxyService::CreateSystemProxyConfigService`. -/
structure ProxyConfigService where
  addr : Nat
  io_loop : MessageLoop
  file_loop : MessageLoop
deriving DecidableEq, Repr

/-- The enumeration `content::CookieStoreConfig::SessionCookieMode`. -/
inductive SessionCookieMode where
  | EPHEMERAL_SESSION_COOKIES
  | PERSISTANT_SESSION_COOKIES
  | RESTORED_SESSION_COOKIES
deriving DecidableEq, Repr

/-- The arguments of `content::CookieStoreConfig(path, mode, policy, delegate)`. -/
structure CookieStoreConfig where
  path : FilePath
  session_cookie_mode : SessionCookieMode
  storage_policy : Option Nat
  cookie_delegate : Option Nat
deriving DecidableEq, Repr

/-- The result of `content::CreateCookieStore(config)`. -/
structure CookieStore where
  addr : Nat
  config : CookieStoreConfig
deriving DecidableEq, Repr

/-- A `net::ServerBoundCertService(new DefaultServerBoundCertStore(store), runner)`;
`task_is_slow` is the argument of `base::WorkerPool::GetTaskRunner`. -/
structure ServerBoundCertService where
  addr : Nat
  persistent_store : Option Nat
  task_is_slow : Bool
deriving DecidableEq, Repr

/-- A `net::StaticHttpUserAgentSettings(accept_language, user_agent)`. -/
structure HttpUserAgentSettings where
  addr : Nat
  accept_language : String
  user_agent : String
deriving DecidableEq, Repr

/-- The result of `net::HostResolver::CreateDefaultResolver(net_log)`. -/
structure HostResolver where
  addr : Nat
  net_log : Option Nat
deriving DecidableEq, Repr

/-- The result of `net::CreateProxyServiceUsingV8ProxyResolver`, with the
arguments it was given; the two script fetchers are made for a request
context, kept by address. -/
structure ProxyService where
  addr : Nat
  proxy_config_service : Option ProxyConfigService
  proxy_script_fetcher_context : Nat
  dhcp_proxy_script_fetcher_context : Nat
  host_resolver : Option HostResolver
  net_log : Option Nat
  network_delegate : Option NetworkDelegate
deriving DecidableEq, Repr

/-- The result of `net::CertVerifier::CreateDefault()`. -/
structure CertVerifier where
  addr : Nat
deriving DecidableEq, Repr

/-- A `new net::TransportSecurityState`. -/
structure TransportSecurityState where
  addr : Nat
deriving DecidableEq, Repr

/-- A `new net::SSLConfigServiceDefaults`. -/
structure SSLConfigService where
  addr : Nat
deriving DecidableEq, Repr

/-- The result of `net::HttpAuthHandlerFactory::CreateDefault(host_resolver)`. -/
structure HttpAuthHandlerFactory where
  addr : Nat
  host_resolver : Option HostResolver
deriving DecidableEq, Repr

/-- A `new net::HttpServerPropertiesImpl`. -/
structure HttpServerProperties where
  addr : Nat
deriving DecidableEq, Repr

/-- The enumeration `net::CacheType`. -/
inductive CacheType where
  | DISK_CACHE
  | MEMORY_CACHE
  | MEDIA_CACHE
  | APP_CACHE
deriving DecidableEq, Repr

/-- The enumeration `net::BackendType`. -/
inductive BackendType where
  | CACHE_BACKEND_DEFAULT
  | CACHE_BACKEND_BLOCKFILE
  | CACHE_BACKEND_SIMPLE
deriving DecidableEq, Repr

/-- The browser threads a cache backend can be given. -/
inductive BrowserThreadID where
  | DB
  | FILE
  | CACHE
deriving DecidableEq, Repr

/-- A `net::HttpCache::DefaultBackend(type, backend_type, path, max_bytes, thread)`. -/
structure DefaultBackend where
  type : CacheType
  backend_type : BackendType
  path : FilePath
  max_bytes : Int
  thread : BrowserThreadID
deriving DecidableEq, Repr

/-- The fields of `net::HttpNetworkSession::Params` the code assigns. -/
structure HttpNetworkSessionParams where
  cert_verifier : Option CertVerifier
  transport_security_state : Option TransportSecurityState
  server_bound_cert_service : Option ServerBoundCertService
  proxy_service : Option ProxyService
  ssl_config_service : Option SSLConfigService
  http_auth_handler_factory : Option HttpAuthHandlerFactory
  network_delegate : Option NetworkDelegate
  http_server_properties : Option HttpServerProperties
  host_resolver : Option HostResolver
  ignore_certificate_errors : Bool
deriving DecidableEq, Repr

/-- A default-constructed `net::HttpNetworkSession::Params`: every pointer null. -/
def HttpNetworkSessionParams.default : HttpNetworkSessionParams :=
  { cert_verifier := none, transport_security_state := none,
    server_bound_cert_service := none, proxy_service := none,
    ssl_config_service := none, http_auth_handler_factory := none,
    network_delegate := none, http_server_properties := none,
    host_resolver := none, ignore_certificate_errors := false }

/-- A `new net::HttpCache(params, backend)`. -/
structure HttpCache where
  addr : Nat
  params : HttpNetworkSessionParams
  backend : DefaultBackend
deriving DecidableEq, Repr

/-- The enumeration `base::SequencedWorkerPool::WorkerShutdown`. -/
inductive WorkerShutdown where
  | CONTINUE_ON_SHUTDOWN
  | SKIP_ON_SHUTDOWN
  | BLOCK_SHUTDOWN
deriving DecidableEq, Repr

/-- A `net::URLRequestJobFactory::ProtocolHandler`: one supplied by the
embedder (told apart by `id`), or one of the two the getter creates itself. -/
inductive ProtocolHandler where
  | embedder (id : Nat)
  | DataProtocolHandler (addr : Nat)
  | FileProtocolHandler (addr : Nat) (shutdown : WorkerShutdown)
deriving DecidableEq, Repr

/-- The constant `content::kDataScheme`. -/
def kDataScheme : String := "data"

/-- The constant `content::kFileScheme`. -/
def kFileScheme : String := "file"

/-- A `net::URLRequestJobFactoryImpl`: its address and its map from scheme to
handler, an association list whose keys are pairwise distinct. -/
structure URLRequestJobFactoryImpl where
  addr : Nat
  protocol_handler_map : List (String × ProtocolHandler)
deriving DecidableEq, Repr

/-- The method `URLRequestJobFactoryImpl::SetProtocolHandler(scheme, handler)`
of the engine (`net/url_request/url_request_job_factory_impl.cc`).
With a null handler it removes the entry of `scheme` and reports whether there
was one; with a handler it adds the entry unless `scheme` has one already and
reports whether it was added. -/
def URLRequestJobFactoryImpl.SetProtocolHandler (f : URLRequestJobFactoryImpl)
    (scheme : String) (protocol_handler : Option ProtocolHandler) :
    Bool × URLRequestJobFactoryImpl :=
  match protocol_handler with
  | none =>
    match f.protocol_handler_map.lookup scheme with
    | none => (false, f)
    | some _ =>
      (true, { f with protocol_handler_map :=
                        f.protocol_handler_map.filter (fun e => e.1 != scheme) })
  | some h =>
    match f.protocol_handler_map.lookup scheme with
    | some _ => (false, f)
    | none => (true, { f with protocol_handler_map := (scheme, h) :: f.protocol_handler_map })

/-- A `net::URLRequestJobFactory`: the plain implementation, or a
`net::ProtocolInterceptJobFactory(job_factory, protocol_handler)` around
another factory. -/
inductive URLRequestJobFactory where
  | Impl (f : URLRequestJobFactoryImpl)
  | ProtocolInterceptJobFactory (job_factory : URLRequestJobFactory)
      (protocol_handler : Option ProtocolHandler)
deriving DecidableEq, Repr

/-- The plain implementation at the bottom of a chain of interceptors. -/
def URLRequestJobFactory.base : URLRequestJobFactory → URLRequestJobFactoryImpl
  | .Impl f => f
  | .ProtocolInterceptJobFactory job_factory _ => job_factory.base

/-- A `content::ProtocolHandlerMap`, a `std::map` from scheme to
`linked_ptr<ProtocolHandler>`: its entries in iteration order, the keys
pairwise distinct. -/
abbrev ProtocolHandlerMap :=
  { l : List (String × Option ProtocolHandler) // (l.map Prod.fst).Nodup }

/-- The empty `content::ProtocolHandlerMap`. -/
def ProtocolHandlerMap.empty : ProtocolHandlerMap := ⟨[], List.nodup_nil⟩

/-! ## The request context and its storage -/

/-- The components of a `net::URLRequestContext` the code sets; each is a raw
pointer. -/
structure URLRequestContext where
  addr : Nat
  network_delegate : Option NetworkDelegate
  cookie_store : Option CookieStore
  server_bound_cert_service : Option ServerBoundCertService
  http_user_agent_settings : Option HttpUserAgentSettings
  proxy_service : Option ProxyService
  cert_verifier : Option CertVerifier
  transport_security_state : Option TransportSecurityState
  ssl_config_service : Option SSLConfigService
  http_auth_handler_factory : Option HttpAuthHandlerFactory
  http_server_properties : Option HttpServerProperties
  host_resolver : Option HostResolver
  http_transaction_factory : Option HttpCache
  job_factory : Option URLRequestJobFactory
deriving DecidableEq, Repr

/-- A `new net::URLRequestContext()` at address `a`: every component null. -/
def URLRequestContext.new (a : Nat) : URLRequestContext :=
  { addr := a, network_delegate := none, cookie_store := none,
    server_bound_cert_service := none, http_user_agent_settings := none,
    proxy_service := none, cert_verifier := none, transport_security_state := none,
    ssl_config_service := none, http_auth_handler_factory := none,
    http_server_properties := none, host_resolver := none,
    http_transaction_factory := none, job_factory := none }

/-- `URLRequestContext::set_network_delegate`. -/
def URLRequestContext.set_network_delegate (c : URLRequestContext)
    (network_delegate : Option NetworkDelegate) : URLRequestContext :=
  { c with network_delegate := network_delegate }

/-- A `net::URLRequestContextStorage`: the context it fills, by address, and
the objects it owns. -/
structure URLRequestContextStorage where
  context_ : Nat
  cookie_store_ : Option CookieStore
  server_bound_cert_service_ : Option ServerBoundCertService
  http_user_agent_settings_ : Option HttpUserAgentSettings
  proxy_service_ : Option ProxyService
  cert_verifier_ : Option CertVerifier
  transport_security_state_ : Option TransportSecurityState
  ssl_config_service_ : Option SSLConfigService
  http_auth_handler_factory_ : Option HttpAuthHandlerFactory
  http_server_properties_ : Option HttpServerProperties
  host_resolver_ : Option HostResolver
  http_transaction_factory_ : Option HttpCache
  job_factory_ : Option URLRequestJobFactory
deriving DecidableEq, Repr

/-- A `new net::URLRequestContextStorage(context)`: it owns nothing yet. -/
def URLRequestContextStorage.new (context : Nat) : URLRequestContextStorage :=
  { context_ := context, cookie_store_ := none, server_bound_cert_service_ := none,
    http_user_agent_settings_ := none, proxy_service_ := none, cert_verifier_ := none,
    transport_security_state_ := none, ssl_config_service_ := none,
    http_auth_handler_factory_ := none, http_server_properties_ := none,
    host_resolver_ := none, http_transaction_factory_ := none, job_factory_ := none }

/-- The storage together with the context it fills: each setter of the storage
takes ownership of the object and sets the pointer of the context. -/
abbrev Stored := URLRequestContextStorage × URLRequestContext

/-- `URLRequestContextStorage::set_cookie_store`. -/
def URLRequestContextStorage.set_cookie_store (s : Stored) (x : CookieStore) : Stored :=
  ({ s.1 with cookie_store_ := some x }, { s.2 with cookie_store := some x })

/-- `URLRequestContextStorage::set_server_bound_cert_service`. -/
def URLRequestContextStorage.set_server_bound_cert_service (s : Stored)
    (x : ServerBoundCertService) : Stored :=
  ({ s.1 with server_bound_cert_service_ := some x },
   { s.2 with server_bound_cert_service := some x })

/-- `URLRequestContextStorage::set_http_user_agent_settings`. -/
def URLRequestContextStorage.set_http_user_agent_settings (s : Stored)
    (x : HttpUserAgentSettings) : Stored :=
  ({ s.1 with http_user_agent_settings_ := some x },
   { s.2 with http_user_agent_settings := some x })

/-- `URLRequestContextStorage::set_proxy_service`. -/
def URLRequestContextStorage.set_proxy_service (s : Stored) (x : ProxyService) : Stored :=
  ({ s.1 with proxy_service_ := some x }, { s.2 with proxy_service := some x })

/-- `URLRequestContextStorage::set_cert_verifier`. -/
def URLRequestContextStorage.set_cert_verifier (s : Stored) (x : CertVerifier) : Stored :=
  ({ s.1 with cert_verifier_ := some x }, { s.2 with cert_verifier := some x })

/-- `URLRequestContextStorage::set_transport_security_state`. -/
def URLRequestContextStorage.set_transport_security_state (s : Stored)
    (x : TransportSecurityState) : Stored :=
  ({ s.1 with transport_security_state_ := some x },
   { s.2 with transport_security_state := some x })

/-- `URLRequestContextStorage::set_ssl_config_service`. -/
def URLRequestContextStorage.set_ssl_config_service (s : Stored)
    (x : SSLConfigService) : Stored :=
  ({ s.1 with ssl_config_service_ := some x }, { s.2 with ssl_config_service := some x })

/-- `URLRequestContextStorage::set_http_auth_handler_factory`. -/
def URLRequestContextStorage.set_http_auth_handler_factory (s : Stored)
    (x : HttpAuthHandlerFactory) : Stored :=
  ({ s.1 with http_auth_handler_factory_ := some x },
   { s.2 with http_auth_handler_factory := some x })

/-- `URLRequestContextStorage::set_http_server_properties`. -/
def URLRequestContextStorage.set_http_server_properties (s : Stored)
    (x : HttpServerProperties) : Stored :=
  ({ s.1 with http_server_properties_ := some x },
   { s.2 with http_server_properties := some x })

/-- `URLRequestContextStorage::set_host_resolver`. -/
def URLRequestContextStorage.set_host_resolver (s : Stored) (x : HostResolver) : Stored :=
  ({ s.1 with host_resolver_ := some x }, { s.2 with host_resolver := some x })

/-- `URLRequestContextStorage::set_http_transaction_factory`. -/
def URLRequestContextStorage.set_http_transaction_factory (s : Stored)
    (x : HttpCache) : Stored :=
  ({ s.1 with http_transaction_factory_ := some x },
   { s.2 with http_transaction_factory := some x })

/-- `URLRequestContextStorage::set_job_factory`. -/
def URLRequestContextStorage.set_job_factory (s : Stored)
    (x : URLRequestJobFactory) : Stored :=
  ({ s.1 with job_factory_ := some x }, { s.2 with job_factory := some x })

/-! ## Factory functions of the engine

Each returns a newly allocated object that records the arguments. -/

/-- `net::ProxyService::CreateSystemProxyConfigService(io_loop, file_loop)`. -/
def CreateSystemProxyConfigService (io_loop file_loop : MessageLoop) (w : World) :
    ProxyConfigService × World :=
  let (a, w) := New w
  ({ addr := a, io_loop := io_loop, file_loop := file_loop }, w)

/-- `content::CreateCookieStore(config)`. -/
def CreateCookieStore (config : CookieStoreConfig) (w : World) : CookieStore × World :=
  let (a, w) := New w
  ({ addr := a, config := config }, w)

/-- `new net::ServerBoundCertService(new net::DefaultServerBoundCertStore(store),
base::WorkerPool::GetTaskRunner(task_is_slow))`. -/
def NewServerBoundCertService (store : Option Nat) (task_is_slow : Bool) (w : World) :
    ServerBoundCertService × World :=
  let (a, w) := New w
  ({ addr := a, persistent_store := store, task_is_slow := task_is_slow }, w)

/-- `new net::StaticHttpUserAgentSettings(accept_language, user_agent)`. -/
def NewStaticHttpUserAgentSettings (accept_language user_agent : String) (w : World) :
    HttpUserAgentSettings × World :=
  let (a, w) := New w
  ({ addr := a, accept_language := accept_language, user_agent := user_agent }, w)

/-- `net::HostResolver::CreateDefaultResolver(net_log)`. -/
def CreateDefaultResolver (net_log : Option Nat) (w : World) : HostResolver × World :=
  let (a, w) := New w
  ({ addr := a, net_log := net_log }, w)

/-- `net::CreateProxyServiceUsingV8ProxyResolver(config_service, new
ProxyScriptFetcherImpl(context), dhcp_factory.Create(context), host_resolver,
net_log, network_delegate)`. -/
def CreateProxyServiceUsingV8ProxyResolver
    (proxy_config_service : Option ProxyConfigService)
    (proxy_script_fetcher_context dhcp_proxy_script_fetcher_context : Nat)
    (host_resolver : Option HostResolver) (net_log : Option Nat)
    (network_delegate : Option NetworkDelegate) (w : World) : ProxyService × World :=
  let (a, w) := New w
  ({ addr := a, proxy_config_service := proxy_config_service,
     proxy_script_fetcher_context := proxy_script_fetcher_context,
     dhcp_proxy_script_fetcher_context := dhcp_proxy_script_fetcher_context,
     host_resolver := host_resolver, net_log := net_log,
     network_delegate := network_delegate }, w)

/-- `net::CertVerifier::CreateDefault()`. -/
def CertVerifier.CreateDefault (w : World) : CertVerifier × World :=
  let (a, w) := New w
  ({ addr := a }, w)

/-- `new net::TransportSecurityState`. -/
def NewTransportSecurityState (w : World) : TransportSecurityState × World :=
  let (a, w) := New w
  ({ addr := a }, w)

/-- `new net::SSLConfigServiceDefaults`. -/
def NewSSLConfigServiceDefaults (w : World) : SSLConfigService × World :=
  let (a, w) := New w
  ({ addr := a }, w)

/-- `net::HttpAuthHandlerFactory::CreateDefault(host_resolver)`. -/
def HttpAuthHandlerFactory.CreateDefault (host_resolver : Option HostResolver)
    (w : World) : HttpAuthHandlerFactory × World :=
  let (a, w) := New w
  ({ addr := a, host_resolver := host_resolver }, w)

/-- `new net::HttpServerPropertiesImpl`. -/
def NewHttpServerPropertiesImpl (w : World) : HttpServerProperties × World :=
  let (a, w) := New w
  ({ addr := a }, w)

/-- `new net::HttpCache(params, backend)`. -/
def NewHttpCache (params : HttpNetworkSessionParams) (backend : DefaultBackend)
    (w : World) : HttpCache × World :=
  let (a, w) := New w
  ({ addr := a, params := params, backend := backend }, w)

/-- `new net::URLRequestJobFactoryImpl()`: no handler registered. -/
def NewURLRequestJobFactoryImpl (w : World) : URLRequestJobFactoryImpl × World :=
  let (a, w) := New w
  ({ addr := a, protocol_handler_map := [] }, w)

/-- `new net::DataProtocolHandler`. -/
def NewDataProtocolHandler (w : World) : ProtocolHandler × World :=
  let (a, w) := New w
  (.DataProtocolHandler a, w)

/-- `new net::FileProtocolHandler(GetBlockingPool()->
GetTaskRunnerWithShutdownBehavior(shutdown))`. -/
def NewFileProtocolHandler (shutdown : WorkerShutdown) (w : World) :
    ProtocolHandler × World :=
  let (a, w) := New w
  (.FileProtocolHandler a shutdown, w)

/-- A `base::Callback<scoped_ptr<NetworkDelegate>(void)>`: what `Run()` hands
back, possibly the null pointer. -/
abbrev NetworkDelegateFactory := Unit → Option NetworkDelegate

/-- `network_delegate_factory.Run()`: the result of the callback; the run is
counted. -/
def NetworkDelegateFactory.Run (factory : NetworkDelegateFactory) (w : World) :
    Option NetworkDelegate × World :=
  (factory (), { w with network_delegate_factory_runs := w.network_delegate_factory_runs + 1 })

/-! ## URLRequestContextGetter -/

/-- The data members of `brightray::URLRequestContextGetter`. -/
structure URLRequestContextGetter where
  base_path_ : FilePath
  io_loop_ : MessageLoop
  file_loop_ : MessageLoop
  network_delegate_factory_ : NetworkDelegateFactory
  protocol_handlers_ : ProtocolHandlerMap
  protocol_interceptors_ : List (Option ProtocolHandler)
  proxy_config_service_ : Option ProxyConfigService
  url_request_context_ : Option URLRequestContext
  storage_ : Option URLRequestContextStorage
  network_delegate_ : Option NetworkDelegate

/-- The constructor `URLRequestContextGetter::URLRequestContextGetter`
(lines 41-60), under the name `Create`.  `protocol_handlers` is the map the
pointer of the caller refers to; it is swapped with the still empty member, so
the second component of the result, that map afterwards, is empty. -/
def URLRequestContextGetter.Create (base_path : FilePath)
    (io_loop file_loop : MessageLoop) (network_delegate_factory : NetworkDelegateFactory)
    (protocol_handlers : ProtocolHandlerMap)
    (protocol_interceptors : List (Option ProtocolHandler)) (w : World) :
    URLRequestContextGetter × ProtocolHandlerMap × World :=
  let protocol_handlers_ := ProtocolHandlerMap.empty
  -- std::swap(protocol_handlers_, *protocol_handlers)
  let (protocol_handlers_, protocol_handlers) := (protocol_handlers, protocol_handlers_)
  let (proxy_config_service, w) := CreateSystemProxyConfigService io_loop file_loop w
  ({ base_path_ := base_path, io_loop_ := io_loop, file_loop_ := file_loop,
     network_delegate_factory_ := network_delegate_factory,
     protocol_handlers_ := protocol_handlers_,
     protocol_interceptors_ := protocol_interceptors,
     proxy_config_service_ := some proxy_config_service,
     url_request_context_ := none, storage_ := none, network_delegate_ := none },
   protocol_handlers, w)

/-- The loop of lines 153-159 over the entries of `protocol_handlers_` in
iteration order: each handler is released from its `linked_ptr` and handed to
`SetProtocolHandler`, and `DCHECK(set_protocol)` is evaluated on the result. -/
def SetProtocolHandlers :
    List (String × Option ProtocolHandler) → URLRequestJobFactoryImpl → World →
      URLRequestJobFactoryImpl × World
  | [], job_factory, w => (job_factory, w)
  | (scheme, handler) :: rest, job_factory, w =>
    let (set_protocol, job_factory) := job_factory.SetProtocolHandler scheme handler
    let w := DCHECK set_protocol w
    SetProtocolHandlers rest job_factory w

/-- Lines 151-168: the plain job factory, with the handlers of the map and
then the handlers for the data and the file scheme; the results of the last
two calls of `SetProtocolHandler` are dropped, as in the source. -/
def BuildJobFactory (protocol_handlers : ProtocolHandlerMap) (w : World) :
    URLRequestJobFactoryImpl × World :=
  let (job_factory, w) := NewURLRequestJobFactoryImpl w
  let (job_factory, w) := SetProtocolHandlers protocol_handlers.val job_factory w
  let (data_handler, w) := NewDataProtocolHandler w
  let job_factory := (job_factory.SetProtocolHandler kDataScheme (some data_handler)).2
  let (file_handler, w) := NewFileProtocolHandler .SKIP_ON_SHUTDOWN w
  let job_factory := (job_factory.SetProtocolHandler kFileScheme (some file_handler)).2
  (job_factory, w)

/-- Lines 171-179: the loop over `protocol_interceptors_` from `rbegin()` to
`rend()`; each step puts a `ProtocolInterceptJobFactory` around the factory
built so far. -/
def SetUpInterceptors (protocol_interceptors : List (Option ProtocolHandler))
    (job_factory : URLRequestJobFactoryImpl) : URLRequestJobFactory :=
  protocol_interceptors.reverse.foldl
    (fun top_job_factory i => .ProtocolInterceptJobFactory top_job_factory i)
    (.Impl job_factory)

/-- The method `URLRequestContextGetter::GetURLRequestContext` (lines 69-186):
the pointer it returns, the getter afterwards and the world afterwards. -/
def URLRequestContextGetter.GetURLRequestContext (g : URLRequestContextGetter)
    (w : World) : Option URLRequestContext × URLRequestContextGetter × World :=
  match g.url_request_context_ with
  | some c => (some c, g, w)
  | none =>
    let (a, w) := New w
    let url_request_context := URLRequestContext.new a
    let (network_delegate_, w) := g.network_delegate_factory_.Run w
    let url_request_context := url_request_context.set_network_delegate network_delegate_
    let s : Stored := (URLRequestContextStorage.new a, url_request_context)
    let cookie_config : CookieStoreConfig :=
      { path := g.base_path_.Append "Cookies",
        session_cookie_mode := .EPHEMERAL_SESSION_COOKIES,
        storage_policy := none, cookie_delegate := none }
    let (cookie_store, w) := CreateCookieStore cookie_config w
    let s := URLRequestContextStorage.set_cookie_store s cookie_store
    let (cert_service, w) := NewServerBoundCertService none true w
    let s := URLRequestContextStorage.set_server_bound_cert_service s cert_service
    let (user_agent_settings, w) := NewStaticHttpUserAgentSettings "en-us,en" "" w
    let s := URLRequestContextStorage.set_http_user_agent_settings s user_agent_settings
    let (host_resolver, w) := CreateDefaultResolver none w
    let (proxy_service, w) :=
      CreateProxyServiceUsingV8ProxyResolver g.proxy_config_service_ s.2.addr s.2.addr
        (some host_resolver) none s.2.network_delegate w
    -- proxy_config_service_.release()
    let proxy_config_service_ : Option ProxyConfigService := none
    let s := URLRequestContextStorage.set_proxy_service s proxy_service
    let (cert_verifier, w) := CertVerifier.CreateDefault w
    let s := URLRequestContextStorage.set_cert_verifier s cert_verifier
    let (transport_security_state, w) := NewTransportSecurityState w
    let s := URLRequestContextStorage.set_transport_security_state s transport_security_state
    let (ssl_config_service, w) := NewSSLConfigServiceDefaults w
    let s := URLRequestContextStorage.set_ssl_config_service s ssl_config_service
    let (auth_handler_factory, w) := HttpAuthHandlerFactory.CreateDefault (some host_resolver) w
    let s := URLRequestContextStorage.set_http_auth_handler_factory s auth_handler_factory
    let (server_properties, w) := NewHttpServerPropertiesImpl w
    let s := URLRequestContextStorage.set_http_server_properties s server_properties
    let cache_path := g.base_path_.Append "Cache"
    let main_backend : DefaultBackend :=
      { type := .DISK_CACHE, backend_type := .CACHE_BACKEND_DEFAULT, path := cache_path,
        max_bytes := 0, thread := .CACHE }
    let network_session_params : HttpNetworkSessionParams :=
      { HttpNetworkSessionParams.default with
        cert_verifier := s.2.cert_verifier
        transport_security_state := s.2.transport_security_state
        server_bound_cert_service := s.2.server_bound_cert_service
        proxy_service := s.2.proxy_service
        ssl_config_service := s.2.ssl_config_service
        http_auth_handler_factory := s.2.http_auth_handler_factory
        network_delegate := s.2.network_delegate
        http_server_properties := s.2.http_server_properties
        ignore_certificate_errors := false }
    let s := URLRequestContextStorage.set_host_resolver s host_resolver
    let network_session_params :=
      { network_session_params with host_resolver := s.2.host_resolver }
    let (main_cache, w) := NewHttpCache network_session_params main_backend w
    let s := URLRequestContextStorage.set_http_transaction_factory s main_cache
    let (job_factory, w) := BuildJobFactory g.protocol_handlers_ w
    -- protocol_handlers_.clear()
    let protocol_handlers_ := ProtocolHandlerMap.empty
    let top_job_factory := SetUpInterceptors g.protocol_interceptors_ job_factory
    -- protocol_interceptors_.weak_clear()
    let protocol_interceptors_ : List (Option ProtocolHandler) := []
    let s := URLRequestContextStorage.set_job_factory s top_job_factory
    (some s.2,
     { g with
       network_delegate_ := network_delegate_
       proxy_config_service_ := proxy_config_service_
       protocol_handlers_ := protocol_handlers_
       protocol_interceptors_ := protocol_interceptors_
       url_request_context_ := some s.2
       storage_ := some s.1 },
     w)

/-- The member function `URLRequestContextGetter::host_resolver` (lines 65-67).
Line 66 dereferences `url_request_context_`: on a getter without a context
that is a null dereference and the result is `none`, no value at all; on a
getter with a context the result is `some` of the pointer the context holds. -/
def URLRequestContextGetter.host_resolver (g : URLRequestContextGetter) :
    Option (Option HostResolver) :=
  match g.url_request_context_ with
  | none => none
  | some c => some c.host_resolver

/-! ## ContentClient -/

/-- The enumeration `ui::ScaleFactor`. -/
inductive ScaleFactor where
  | SCALE_FACTOR_NONE
  | SCALE_FACTOR_100P
  | SCALE_FACTOR_200P
deriving DecidableEq, Repr

/-- The functions `common/content_client.cc` calls and does not define:
`brightray::GetApplicationName` (declared in `common/application_name.h`),
`webkit_glue::BuildUserAgentFromProduct` and the method
`GetRawDataResourceForScale` of `ui::ResourceBundle::GetSharedInstance()`. -/
structure ContentEnvironment where
  GetApplicationName : Unit → String
  BuildUserAgentFromProduct : String → String
  GetRawDataResourceForScale : Int → ScaleFactor → String

/-- A `brightray::ContentClient`; the class has no data members. -/
structure ContentClient where
deriving DecidableEq, Repr

/-- The method `ContentClient::GetUserAgent` (lines 20-22). -/
def ContentClient.GetUserAgent (_self : ContentClient) (env : ContentEnvironment) : String :=
  env.BuildUserAgentFromProduct (env.GetApplicationName ())

/-- The method `ContentClient::GetDataResource` (lines 24-26). -/
def ContentClient.GetDataResource (_self : ContentClient) (env : ContentEnvironment)
    (resource_id : Int) (scale_factor : ScaleFactor) : String :=
  env.GetRawDataResourceForScale resource_id scale_factor

/-! ## Notions used to state the properties -/

/-- The nesting `Intercept(i1, Intercept(i2, ... Intercept(in, J)))` of a list
of interceptors around a job factory `J`: the first interceptor is the
outermost, and the empty list gives `J` itself. -/
def InterceptNesting :
    List (Option ProtocolHandler) → URLRequestJobFactory → URLRequestJobFactory
  | [], J => J
  | i :: rest, J => .ProtocolInterceptJobFactory (InterceptNesting rest J) i

/-- The world in which the first `GetURLRequestContext`, started in `w`, comes
to build the job factory: the callback has run once and twelve objects have
been allocated (the context, ten of its components and the host resolver). -/
def WorldAtJobFactory (w : World) : World :=
  { next_addr := w.next_addr + 12,
    network_delegate_factory_runs := w.network_delegate_factory_runs + 1,
    dcheck_failures := w.dcheck_failures }

/-- One more call of `GetURLRequestContext`, on the getter and in the world the
previous call left behind. -/
def CallAgain (r : Option URLRequestContext × URLRequestContextGetter × World) :
    Option URLRequestContext × URLRequestContextGetter × World :=
  r.2.1.GetURLRequestContext r.2.2

/-- Every component of the HTTP stack of a request context is set. -/
def URLRequestContext.AllComponentsSet (c : URLRequestContext) : Prop :=
  c.network_delegate ≠ none ∧ c.cookie_store ≠ none ∧
  c.server_bound_cert_service ≠ none ∧ c.http_user_agent_settings ≠ none ∧
  c.proxy_service ≠ none ∧ c.cert_verifier ≠ none ∧
  c.transport_security_state ≠ none ∧ c.ssl_config_service ≠ none ∧
  c.http_auth_handler_factory ≠ none ∧ c.http_server_properties ≠ none ∧
  c.host_resolver ≠ none ∧ c.http_transaction_factory ≠ none ∧
  c.job_factory ≠ none

/-- The first call of `GetURLRequestContext` on the getter the constructor
makes from the given arguments, in the world the constructor leaves behind. -/
def FirstCall (base_path : FilePath) (io_loop file_loop : MessageLoop)
    (network_delegate_factory : NetworkDelegateFactory)
    (protocol_handlers : ProtocolHandlerMap)
    (protocol_interceptors : List (Option ProtocolHandler)) (w : World) :
    Option URLRequestContext × URLRequestContextGetter × World :=
  (URLRequestContextGetter.Create base_path io_loop file_loop network_delegate_factory
      protocol_handlers protocol_interceptors w).1.GetURLRequestContext
    (URLRequestContextGetter.Create base_path io_loop file_loop network_delegate_factory
      protocol_handlers protocol_interceptors w).2.2

/-! ## Concrete inputs -/

/-- A world to start from. -/
def sampleWorld : World :=
  { next_addr := 100, network_delegate_factory_runs := 0, dcheck_failures := 0 }

/-- A base path. -/
def samplePath : FilePath := ⟨["home", "profile"]⟩

/-- A callback that hands back a network delegate. -/
def sampleFactory : NetworkDelegateFactory := fun _ => some ⟨1⟩

/-- A callback that hands back the null pointer. -/
def nullFactory : NetworkDelegateFactory := fun _ => none

/-- A handler map with two schemes, each with a handler. -/
def sampleHandlers : ProtocolHandlerMap :=
  ⟨[("chrome", some (.embedder 1)), ("blob", some (.embedder 2))], by decide⟩

/-- A handler map in which the scheme `chrome` has the null pointer as its handler. -/
def nullHandlers : ProtocolHandlerMap :=
  ⟨[("chrome", none)], by decide⟩

/-- Two interceptors. -/
def sampleInterceptors : List (Option ProtocolHandler) :=
  [some (.embedder 7), some (.embedder 8)]

/-- A getter as the constructor makes it, with a callback that hands back a
network delegate. -/
def sampleGetter : URLRequestContextGetter :=
  (URLRequestContextGetter.Create samplePath 1 2 sampleFactory sampleHandlers
    sampleInterceptors sampleWorld).1

/-- A getter as the constructor makes it, with a callback that hands back the
null pointer. -/
def nullFactoryGetter : URLRequestContextGetter :=
  (URLRequestContextGetter.Create samplePath 1 2 nullFactory sampleHandlers
    sampleInterceptors sampleWorld).1

/-- The world the constructor leaves behind when it is run in `sampleWorld`. -/
def sampleStart : World :=
  (URLRequestContextGetter.Create samplePath 1 2 sampleFactory sampleHandlers
    sampleInterceptors sampleWorld).2.2

/-- A content environment: the application is called brightray_example and the
user agent is the product after a fixed lead. -/
def sampleEnvironment : ContentEnvironment :=
  { GetApplicationName := fun _ => "brightray_example",
    BuildUserAgentFromProduct := fun product => "Mozilla/5.0 " ++ product,
    GetRawDataResourceForScale := fun resource_id _ => toString resource_id }

/-! ## Auxiliary lemmas -/

theorem SetUpInterceptors_eq_nesting (l : List (Option ProtocolHandler))
    (J : URLRequestJobFactoryImpl) :
    SetUpInterceptors l J = InterceptNesting l (.Impl J) := by
  unfold SetUpInterceptors
  rw [List.foldl_reverse]
  induction l with
  | nil => rfl
  | cons i rest ih => simp only [List.foldr_cons, InterceptNesting, ih]

theorem InterceptNesting_append (l : List (Option ProtocolHandler))
    (i : Option ProtocolHandler) (J : URLRequestJobFactory) :
    InterceptNesting (l ++ [i]) J
      = InterceptNesting l (.ProtocolInterceptJobFactory J i) := by
  induction l with
  | nil => rfl
  | cons x rest ih =>
    rw [List.cons_append]
    simp only [InterceptNesting]
    rw [ih]

theorem InterceptNesting_base (l : List (Option ProtocolHandler))
    (J : URLRequestJobFactory) : (InterceptNesting l J).base = J.base := by
  induction l with
  | nil => rfl
  | cons x rest ih => simp only [InterceptNesting, URLRequestJobFactory.base, ih]

/-- The first call on a getter without a context: the context returned is the
one stored, and its job factory and the world afterwards are those of
`BuildJobFactory` and `SetUpInterceptors`. -/
theorem GetURLRequestContext_null_job_factory (g : URLRequestContextGetter) (w : World)
    (h : g.url_request_context_ = none) :
    ∃ c, (g.GetURLRequestContext w).1 = some c ∧
      (g.GetURLRequestContext w).2.1.url_request_context_ = some c ∧
      c.job_factory = some (SetUpInterceptors g.protocol_interceptors_
        (BuildJobFactory g.protocol_handlers_ (WorldAtJobFactory w)).1) ∧
      (g.GetURLRequestContext w).2.2
        = (BuildJobFactory g.protocol_handlers_ (WorldAtJobFactory w)).2 := by
  unfold URLRequestContextGetter.GetURLRequestContext
  rw [h]
  exact ⟨_, rfl, rfl, rfl, rfl⟩

/-- A call on a getter that has a context hands back that context and changes
nothing. -/
theorem GetURLRequestContext_of_some (g : URLRequestContextGetter) (w : World)
    (c : URLRequestContext) (h : g.url_request_context_ = some c) :
    g.GetURLRequestContext w = (some c, g, w) := by
  unfold URLRequestContextGetter.GetURLRequestContext
  rw [h]

/-- After any call the getter has a context, and it is the one handed back. -/
theorem GetURLRequestContext_stored (g : URLRequestContextGetter) (w : World) :
    ∃ c, (g.GetURLRequestContext w).1 = some c ∧
      (g.GetURLRequestContext w).2.1.url_request_context_ = some c := by
  cases h : g.url_request_context_ with
  | none =>
    obtain ⟨c, h1, h2, _⟩ := GetURLRequestContext_null_job_factory g w h
    exact ⟨c, h1, h2⟩
  | some c =>
    rw [GetURLRequestContext_of_some g w c h]
    exact ⟨c, rfl, h⟩

/-- A second call gives the result of the first once more. -/
theorem CallAgain_GetURLRequestContext (g : URLRequestContextGetter) (w : World) :
    CallAgain (g.GetURLRequestContext w) = g.GetURLRequestContext w := by
  obtain ⟨c, h1, h2⟩ := GetURLRequestContext_stored g w
  unfold CallAgain
  rw [GetURLRequestContext_of_some _ _ c h2, ← h1]

theorem SetProtocolHandler_absent (f : URLRequestJobFactoryImpl) (scheme : String)
    (x : ProtocolHandler) (h : f.protocol_handler_map.lookup scheme = none) :
    f.SetProtocolHandler scheme (some x)
      = (true, { f with protocol_handler_map := (scheme, x) :: f.protocol_handler_map }) := by
  unfold URLRequestJobFactoryImpl.SetProtocolHandler
  simp only [h]

/-- Registering a handler never disturbs an entry that is there. -/
theorem SetProtocolHandler_keeps (f : URLRequestJobFactoryImpl) (scheme : String)
    (x : ProtocolHandler) (s : String) (y : ProtocolHandler)
    (h : f.protocol_handler_map.lookup s = some y) :
    (f.SetProtocolHandler scheme (some x)).2.protocol_handler_map.lookup s = some y := by
  cases hk : f.protocol_handler_map.lookup scheme with
  | some z =>
    unfold URLRequestJobFactoryImpl.SetProtocolHandler
    simp only [hk]
    exact h
  | none =>
    rw [SetProtocolHandler_absent f scheme x hk]
    have hne : (s == scheme) = false := by
      cases hb : (s == scheme) with
      | false => rfl
      | true =>
        have : s = scheme := by simpa using hb
        rw [this, hk] at h
        cases h
    simp only [List.lookup_cons, hne]
    exact h

theorem SetProtocolHandlers_spec (l : List (String × Option ProtocolHandler)) :
    ∀ (f : URLRequestJobFactoryImpl) (w : World),
      (∀ e ∈ l, e.2 ≠ none) → (l.map Prod.fst).Nodup →
      (∀ e ∈ l, f.protocol_handler_map.lookup e.1 = none) →
      (SetProtocolHandlers l f w).2 = w ∧
      (∀ s y, (s, some y) ∈ l →
        (SetProtocolHandlers l f w).1.protocol_handler_map.lookup s = some y) ∧
      (∀ s y, f.protocol_handler_map.lookup s = some y →
        (SetProtocolHandlers l f w).1.protocol_handler_map.lookup s = some y) := by
  induction l with
  | nil =>
    intro f w _ _ _
    exact ⟨rfl, fun s y hm => absurd hm (List.not_mem_nil _), fun s y hs => hs⟩
  | cons e rest ih =>
    intro f w hnn hnd hfresh
    obtain ⟨scheme, handler⟩ := e
    cases handler with
    | none => exact absurd rfl (hnn (scheme, none) (List.mem_cons_self _ _))
    | some x =>
      have habs : f.protocol_handler_map.lookup scheme = none :=
        hfresh (scheme, some x) (List.mem_cons_self _ _)
      have hndr : (rest.map Prod.fst).Nodup := (List.nodup_cons.mp hnd).2
      have hnotin : scheme ∉ rest.map Prod.fst := (List.nodup_cons.mp hnd).1
      have hstep : SetProtocolHandlers ((scheme, some x) :: rest) f w
          = SetProtocolHandlers rest
              { f with protocol_handler_map := (scheme, x) :: f.protocol_handler_map } w := by
        simp only [SetProtocolHandlers, SetProtocolHandler_absent f scheme x habs, DCHECK]
        rfl
      rw [hstep]
      have hfreshr : ∀ e ∈ rest,
          ({ f with protocol_handler_map := (scheme, x) :: f.protocol_handler_map } :
            URLRequestJobFactoryImpl).protocol_handler_map.lookup e.1 = none := by
        intro e he
        have hne : (e.1 == scheme) = false := by
          cases hb : (e.1 == scheme) with
          | false => rfl
          | true =>
            have : e.1 = scheme := by simpa using hb
            exact absurd (this ▸ List.mem_map_of_mem Prod.fst he) hnotin
        simp only [List.lookup_cons, hne]
        exact hfresh e (List.mem_cons_of_mem _ he)
      obtain ⟨h1, h2, h3⟩ := ih _ w (fun e he => hnn e (List.mem_cons_of_mem _ he)) hndr hfreshr
      refine ⟨h1, ?_, ?_⟩
      · intro s y hm
        rcases List.mem_cons.mp hm with heq | hin
        · cases heq
          apply h3
          simp only [List.lookup_cons, beq_self_eq_true]
        · exact h2 s y hin
      · intro s y hs
        apply h3
        have hne : (s == scheme) = false := by
          cases hb : (s == scheme) with
          | false => rfl
          | true =>
            have : s = scheme := by simpa using hb
            rw [this, habs] at hs
            cases hs
        simp only [List.lookup_cons, hne]
        exact hs

/-- The job factory of `BuildJobFactory`, for a map without null handlers: no
`DCHECK` is violated and every entry of the map is registered. -/
theorem BuildJobFactory_spec (m : ProtocolHandlerMap) (w : World)
    (hnn : ∀ e ∈ m.val, e.2 ≠ none) :
    (BuildJobFactory m w).2.dcheck_failures = w.dcheck_failures ∧
    ∀ s y, (s, some y) ∈ m.val →
      (BuildJobFactory m w).1.protocol_handler_map.lookup s = some y := by
  have hspec := SetProtocolHandlers_spec m.val (NewURLRequestJobFactoryImpl w).1
    (NewURLRequestJobFactoryImpl w).2 hnn m.property (fun e _ => rfl)
  obtain ⟨h1, h2, _⟩ := hspec
  constructor
  · simp only [BuildJobFactory, NewDataProtocolHandler, NewFileProtocolHandler, New, h1]
    rfl
  · intro s y hm
    simp only [BuildJobFactory]
    apply SetProtocolHandler_keeps
    apply SetProtocolHandler_keeps
    exact h2 s y hm

/-- The loop over the handler map allocates nothing and does not run the
network delegate callback. -/
theorem SetProtocolHandlers_world (l : List (String × Option ProtocolHandler)) :
    ∀ (f : URLRequestJobFactoryImpl) (w : World),
      (SetProtocolHandlers l f w).2.next_addr = w.next_addr ∧
      (SetProtocolHandlers l f w).2.network_delegate_factory_runs
        = w.network_delegate_factory_runs := by
  induction l with
  | nil => intro f w; exact ⟨rfl, rfl⟩
  | cons e rest ih =>
    intro f w
    obtain ⟨scheme, handler⟩ := e
    simp only [SetProtocolHandlers]
    obtain ⟨h1, h2⟩ := ih (f.SetProtocolHandler scheme handler).2
      (DCHECK (f.SetProtocolHandler scheme handler).1 w)
    rw [h1, h2]
    unfold DCHECK
    split <;> exact ⟨rfl, rfl⟩

/-- Building the job factory allocates three objects and does not run the
network delegate callback. -/
theorem BuildJobFactory_world (m : ProtocolHandlerMap) (w : World) :
    (BuildJobFactory m w).2.next_addr = w.next_addr + 3 ∧
    (BuildJobFactory m w).2.network_delegate_factory_runs
      = w.network_delegate_factory_runs := by
  obtain ⟨h1, h2⟩ := SetProtocolHandlers_world m.val (NewURLRequestJobFactoryImpl w).1
    (NewURLRequestJobFactoryImpl w).2
  simp only [BuildJobFactory, NewDataProtocolHandler, NewFileProtocolHandler, New, h1, h2]
  exact ⟨rfl, rfl⟩

/-- Where the loop over the handler map does keep its assertion: when no
handler of the map is the null pointer, the first `GetURLRequestContext`
violates no `DCHECK` and every entry of the map is registered under its scheme
in the job factory at the bottom of the installed one. -/
theorem FirstCall_registers_handlers (base_path : FilePath) (io_loop file_loop : MessageLoop)
    (factory : NetworkDelegateFactory) (handlers : ProtocolHandlerMap)
    (interceptors : List (Option ProtocolHandler)) (w : World)
    (hnn : ∀ e ∈ handlers.val, e.2 ≠ none) :
    (FirstCall base_path io_loop file_loop factory handlers interceptors w).2.2.dcheck_failures
      = w.dcheck_failures ∧
    ∃ c job_factory,
      (FirstCall base_path io_loop file_loop factory handlers interceptors w).1 = some c ∧
      c.job_factory = some job_factory ∧
      ∀ scheme handler, (scheme, some handler) ∈ handlers.val →
        job_factory.base.protocol_handler_map.lookup scheme = some handler := by
  obtain ⟨c, h1, _, h3, h4⟩ := GetURLRequestContext_null_job_factory
    (URLRequestContextGetter.Create base_path io_loop file_loop factory handlers
      interceptors w).1
    (URLRequestContextGetter.Create base_path io_loop file_loop factory handlers
      interceptors w).2.2 rfl
  obtain ⟨hd, hreg⟩ := BuildJobFactory_spec handlers (WorldAtJobFactory
    (URLRequestContextGetter.Create base_path io_loop file_loop factory handlers
      interceptors w).2.2) hnn
  constructor
  · unfold FirstCall
    rw [h4]
    exact hd
  · refine ⟨c, _, h1, h3, ?_⟩
    intro scheme handler hm
    rw [SetUpInterceptors_eq_nesting, InterceptNesting_base]
    exact hreg scheme handler hm

/-! ## The claims -/

/-- C1, as amended.  On a getter whose context does not exist yet, the first
call of `GetURLRequestContext` hands back a context whose network delegate is
exactly what the network delegate callback handed back, null pointer included,
and in which the twelve other components of the HTTP stack are set: cookie
store, server-bound cert service, HTTP user agent settings, proxy service, cert
verifier, transport security state, SSL config service, HTTP auth handler
factory, HTTP server properties, host resolver, HTTP transaction factory and
job factory.  So every component is set exactly when the callback hands back a
network delegate. -/
theorem C1_components_set (g : URLRequestContextGetter) (w : World)
    (h : g.url_request_context_ = none) :
    ∃ c, (g.GetURLRequestContext w).1 = some c ∧
      c.network_delegate = g.network_delegate_factory_ () ∧
      c.cookie_store ≠ none ∧ c.server_bound_cert_service ≠ none ∧
      c.http_user_agent_settings ≠ none ∧ c.proxy_service ≠ none ∧
      c.cert_verifier ≠ none ∧ c.transport_security_state ≠ none ∧
      c.ssl_config_service ≠ none ∧ c.http_auth_handler_factory ≠ none ∧
      c.http_server_properties ≠ none ∧ c.host_resolver ≠ none ∧
      c.http_transaction_factory ≠ none ∧ c.job_factory ≠ none ∧
      (c.AllComponentsSet ↔ g.network_delegate_factory_ () ≠ none) := by
  unfold URLRequestContextGetter.GetURLRequestContext
  rw [h]
  refine ⟨_, rfl, rfl, Option.some_ne_none _, Option.some_ne_none _, Option.some_ne_none _,
    Option.some_ne_none _, Option.some_ne_none _, Option.some_ne_none _,
    Option.some_ne_none _, Option.some_ne_none _, Option.some_ne_none _,
    Option.some_ne_none _, Option.some_ne_none _, Option.some_ne_none _, ?_⟩
  constructor
  · intro hall
    exact hall.1
  · intro hnd
    exact ⟨hnd, Option.some_ne_none _, Option.some_ne_none _, Option.some_ne_none _,
      Option.some_ne_none _, Option.some_ne_none _, Option.some_ne_none _,
      Option.some_ne_none _, Option.some_ne_none _, Option.some_ne_none _,
      Option.some_ne_none _, Option.some_ne_none _, Option.some_ne_none _⟩

/-- C1, the amended statement at a getter fresh from the constructor whose
callback hands back a network delegate. -/
theorem C1_components_set_witness :
    sampleGetter.url_request_context_ = none ∧
    ∃ c, (sampleGetter.GetURLRequestContext sampleStart).1 = some c ∧
      c.network_delegate = sampleGetter.network_delegate_factory_ () ∧
      c.cookie_store ≠ none ∧ c.server_bound_cert_service ≠ none ∧
      c.http_user_agent_settings ≠ none ∧ c.proxy_service ≠ none ∧
      c.cert_verifier ≠ none ∧ c.transport_security_state ≠ none ∧
      c.ssl_config_service ≠ none ∧ c.http_auth_handler_factory ≠ none ∧
      c.http_server_properties ≠ none ∧ c.host_resolver ≠ none ∧
      c.http_transaction_factory ≠ none ∧ c.job_factory ≠ none ∧
      (c.AllComponentsSet ↔ sampleGetter.network_delegate_factory_ () ≠ none) :=
  ⟨rfl, C1_components_set sampleGetter sampleStart rfl⟩

/-- C1 as stated fails.  The getter is fresh from the constructor, its callback
hands back the null pointer, and the context of the first call of
`GetURLRequestContext` has no network delegate, so not every component is set. -/
theorem C1_null_network_delegate :
    nullFactoryGetter.url_request_context_ = none ∧
    ∃ c, (nullFactoryGetter.GetURLRequestContext sampleStart).1 = some c ∧
      c.network_delegate = none ∧ ¬ c.AllComponentsSet :=
  ⟨rfl, _, rfl, rfl, fun hall => hall.1 rfl⟩

/-- C2.  For every list of protocol interceptors handed to the constructor, the
job factory the first `GetURLRequestContext` installs is the nesting
`Intercept(i1, Intercept(i2, ... Intercept(in, J)))` around the base job factory
`J` built from the protocol handlers: the first interceptor is the outermost,
the last one wraps `J` directly, and for the empty list the factory is `J`. -/
theorem C2_interceptors_nested (base_path : FilePath) (io_loop file_loop : MessageLoop)
    (factory : NetworkDelegateFactory) (handlers : ProtocolHandlerMap)
    (interceptors : List (Option ProtocolHandler)) (w : World) :
    ∃ c J,
      (FirstCall base_path io_loop file_loop factory handlers interceptors w).1 = some c ∧
      J = (BuildJobFactory handlers (WorldAtJobFactory
            (URLRequestContextGetter.Create base_path io_loop file_loop factory handlers
              interceptors w).2.2)).1 ∧
      c.job_factory = some (InterceptNesting interceptors (.Impl J)) ∧
      (interceptors = [] → c.job_factory = some (.Impl J)) ∧
      (∀ first rest, interceptors = first :: rest →
        c.job_factory
          = some (.ProtocolInterceptJobFactory (InterceptNesting rest (.Impl J)) first)) ∧
      (∀ init last, interceptors = init ++ [last] →
        c.job_factory
          = some (InterceptNesting init (.ProtocolInterceptJobFactory (.Impl J) last))) := by
  obtain ⟨c, h1, _, h3, _⟩ := GetURLRequestContext_null_job_factory
    (URLRequestContextGetter.Create base_path io_loop file_loop factory handlers
      interceptors w).1
    (URLRequestContextGetter.Create base_path io_loop file_loop factory handlers
      interceptors w).2.2 rfl
  rw [SetUpInterceptors_eq_nesting] at h3
  have h3n : c.job_factory = some (InterceptNesting interceptors (.Impl
      (BuildJobFactory handlers (WorldAtJobFactory
        (URLRequestContextGetter.Create base_path io_loop file_loop factory handlers
          interceptors w).2.2)).1)) := h3
  refine ⟨c, _, h1, rfl, h3n, ?_, ?_, ?_⟩
  · intro he
    rw [h3n, he]
    rfl
  · intro first rest he
    rw [h3n, he]
    rfl
  · intro init last he
    rw [h3n, he, InterceptNesting_append]

/-- C3, at the failing input.  The claim holds the code to its own assertion
`DCHECK(set_protocol)` for every protocol handler map.  The map handed to the
constructor here has the null pointer as the handler of its one scheme: in the
first `GetURLRequestContext` the loop hands that null pointer to
`SetProtocolHandler` unchecked, the call hands back false, the assertion of
line 157 is violated, the call goes on to hand back a context, and nothing is
registered under the scheme. -/
theorem C3_null_handler_dcheck :
    (nullHandlers.val.map Prod.fst).Nodup ∧
    (FirstCall samplePath 1 2 sampleFactory nullHandlers sampleInterceptors
        sampleWorld).2.2.dcheck_failures = sampleWorld.dcheck_failures + 1 ∧
    ∃ c job_factory,
      (FirstCall samplePath 1 2 sampleFactory nullHandlers sampleInterceptors
        sampleWorld).1 = some c ∧
      c.job_factory = some job_factory ∧
      job_factory.base.protocol_handler_map.lookup "chrome" = none :=
  ⟨nullHandlers.property, by decide, _, _, rfl, rfl, by decide⟩

/-- C4.  `GetURLRequestContext` is lazily initialising and idempotent.  For
every getter and every number of later calls, the later calls hand back the
context of the first call and leave the getter and the world as the first call
left them, so they neither run the network delegate callback nor allocate
anything; a getter that has a context is left unchanged by the call; the
constructor does not run the callback; and the first call on a getter without
a context runs the callback exactly once. -/
theorem C4_lazy_idempotent (g : URLRequestContextGetter) (w : World)
    (base_path : FilePath) (io_loop file_loop : MessageLoop)
    (factory : NetworkDelegateFactory) (handlers : ProtocolHandlerMap)
    (interceptors : List (Option ProtocolHandler)) :
    (∀ n, CallAgain^[n] (g.GetURLRequestContext w) = g.GetURLRequestContext w) ∧
    (∀ c, g.url_request_context_ = some c → g.GetURLRequestContext w = (some c, g, w)) ∧
    (g.url_request_context_ = none →
      (g.GetURLRequestContext w).2.2.network_delegate_factory_runs
        = w.network_delegate_factory_runs + 1) ∧
    (URLRequestContextGetter.Create base_path io_loop file_loop factory handlers
        interceptors w).1.url_request_context_ = none ∧
    (URLRequestContextGetter.Create base_path io_loop file_loop factory handlers
        interceptors w).2.2.network_delegate_factory_runs
      = w.network_delegate_factory_runs ∧
    ∀ n, (CallAgain^[n] (FirstCall base_path io_loop file_loop factory handlers
        interceptors w)).2.2.network_delegate_factory_runs
      = w.network_delegate_factory_runs + 1 := by
  have hiter : ∀ (g : URLRequestContextGetter) (w : World) (n : Nat),
      CallAgain^[n] (g.GetURLRequestContext w) = g.GetURLRequestContext w := by
    intro g w n
    induction n with
    | zero => rfl
    | succ k ih => rw [Function.iterate_succ_apply, CallAgain_GetURLRequestContext, ih]
  have hfirst : ∀ (g : URLRequestContextGetter) (w : World),
      g.url_request_context_ = none →
      (g.GetURLRequestContext w).2.2.network_delegate_factory_runs
        = w.network_delegate_factory_runs + 1 := by
    intro g w h
    obtain ⟨_, _, _, _, h4⟩ := GetURLRequestContext_null_job_factory g w h
    rw [h4, (BuildJobFactory_world _ _).2]
    rfl
  refine ⟨hiter g w, fun c h => GetURLRequestContext_of_some g w c h, hfirst g w, rfl, rfl, ?_⟩
  intro n
  unfold FirstCall
  rw [hiter]
  exact hfirst _ _ rfl

/-- C5.  For every content client, `GetUserAgent` is exactly
`BuildUserAgentFromProduct` applied to the name `GetApplicationName` hands back,
so it depends on nothing else, and `GetDataResource` is the raw data of the
shared resource bundle for the resource id and the scale factor it was given. -/
theorem C5_content_client_forwards (self : ContentClient) (env : ContentEnvironment) :
    self.GetUserAgent env = env.BuildUserAgentFromProduct (env.GetApplicationName ()) ∧
    (∀ (other : ContentClient) (env2 : ContentEnvironment),
      env2.BuildUserAgentFromProduct = env.BuildUserAgentFromProduct →
      env2.GetApplicationName () = env.GetApplicationName () →
      other.GetUserAgent env2 = self.GetUserAgent env) ∧
    ∀ resource_id scale_factor,
      self.GetDataResource env resource_id scale_factor
        = env.GetRawDataResourceForScale resource_id scale_factor := by
  refine ⟨rfl, ?_, fun _ _ => rfl⟩
  intro other env2 hb hn
  unfold ContentClient.GetUserAgent
  rw [hb, hn]

/-- C6.  After the first `GetURLRequestContext` on a getter without a context,
every component of the network session parameters handed to the HTTP cache is
the corresponding component of the context handed back: cert verifier,
transport security state, server-bound cert service, proxy service, SSL config
service, HTTP auth handler factory, network delegate, HTTP server properties
and host resolver; and that host resolver, owned by the storage in the end, is
the one the proxy service and the auth handler factory were given. -/
theorem C6_session_params_match (g : URLRequestContextGetter) (w : World)
    (h : g.url_request_context_ = none) :
    ∃ c cache resolver proxy auth storage,
      (g.GetURLRequestContext w).1 = some c ∧
      c.http_transaction_factory = some cache ∧
      cache.params.cert_verifier = c.cert_verifier ∧
      cache.params.transport_security_state = c.transport_security_state ∧
      cache.params.server_bound_cert_service = c.server_bound_cert_service ∧
      cache.params.proxy_service = c.proxy_service ∧
      cache.params.ssl_config_service = c.ssl_config_service ∧
      cache.params.http_auth_handler_factory = c.http_auth_handler_factory ∧
      cache.params.network_delegate = c.network_delegate ∧
      cache.params.http_server_properties = c.http_server_properties ∧
      cache.params.host_resolver = c.host_resolver ∧
      c.host_resolver = some resolver ∧
      c.proxy_service = some proxy ∧ proxy.host_resolver = some resolver ∧
      c.http_auth_handler_factory = some auth ∧ auth.host_resolver = some resolver ∧
      (g.GetURLRequestContext w).2.1.storage_ = some storage ∧
      storage.host_resolver_ = some resolver := by
  unfold URLRequestContextGetter.GetURLRequestContext
  rw [h]
  exact ⟨_, _, _, _, _, _, rfl, rfl, rfl, rfl, rfl, rfl, rfl, rfl, rfl, rfl, rfl, rfl, rfl, rfl,
    rfl, rfl, rfl, rfl⟩

/-- C6 at a getter fresh from the constructor. -/
theorem C6_session_params_match_witness :
    sampleGetter.url_request_context_ = none ∧
    ∃ c cache resolver proxy auth storage,
      (sampleGetter.GetURLRequestContext sampleStart).1 = some c ∧
      c.http_transaction_factory = some cache ∧
      cache.params.cert_verifier = c.cert_verifier ∧
      cache.params.transport_security_state = c.transport_security_state ∧
      cache.params.server_bound_cert_service = c.server_bound_cert_service ∧
      cache.params.proxy_service = c.proxy_service ∧
      cache.params.ssl_config_service = c.ssl_config_service ∧
      cache.params.http_auth_handler_factory = c.http_auth_handler_factory ∧
      cache.params.network_delegate = c.network_delegate ∧
      cache.params.http_server_properties = c.http_server_properties ∧
      cache.params.host_resolver = c.host_resolver ∧
      c.host_resolver = some resolver ∧
      c.proxy_service = some proxy ∧ proxy.host_resolver = some resolver ∧
      c.http_auth_handler_factory = some auth ∧ auth.host_resolver = some resolver ∧
      (sampleGetter.GetURLRequestContext sampleStart).2.1.storage_ = some storage ∧
      storage.host_resolver_ = some resolver :=
  ⟨rfl, C6_session_params_match sampleGetter sampleStart rfl⟩

/-- C7.  For every base path given to the constructor, the first
`GetURLRequestContext` configures the cookie store with the path
`base_path/"Cookies"` and ephemeral session cookies, and the disk cache backend
with the path `base_path/"Cache"` and maximum size 0; both paths have the base
path as their directory, and they differ. -/
theorem C7_cookie_and_cache_paths (base_path : FilePath) (io_loop file_loop : MessageLoop)
    (factory : NetworkDelegateFactory) (handlers : ProtocolHandlerMap)
    (interceptors : List (Option ProtocolHandler)) (w : World) :
    ∃ c cookie_store cache,
      (FirstCall base_path io_loop file_loop factory handlers interceptors w).1 = some c ∧
      c.cookie_store = some cookie_store ∧
      cookie_store.config.path = base_path.Append "Cookies" ∧
      cookie_store.config.session_cookie_mode = .EPHEMERAL_SESSION_COOKIES ∧
      c.http_transaction_factory = some cache ∧
      cache.backend.type = .DISK_CACHE ∧
      cache.backend.path = base_path.Append "Cache" ∧
      cache.backend.max_bytes = 0 ∧
      cookie_store.config.path.DirName = base_path ∧
      cache.backend.path.DirName = base_path ∧
      cookie_store.config.path ≠ cache.backend.path := by
  refine ⟨_, _, _, rfl, rfl, rfl, rfl, rfl, rfl, rfl, rfl, ?_, ?_, ?_⟩
  · show (base_path.Append "Cookies").DirName = base_path
    simp [FilePath.Append, FilePath.DirName]
  · show (base_path.Append "Cache").DirName = base_path
    simp [FilePath.Append, FilePath.DirName]
  · show base_path.Append "Cookies" ≠ base_path.Append "Cache"
    intro heq
    have hc : base_path.components ++ ["Cookies"] = base_path.components ++ ["Cache"] :=
      congrArg FilePath.components heq
    have hs : ["Cookies"] = ["Cache"] := List.append_cancel_left hc
    exact absurd hs (by decide)

end brightray
